import Mathlib

/-
Verification of the buffered-send / bounded-queue / communication-layer core
of the kmerind repository, as a shallow sequential embedding.

Sources embedded:
  - src/src/io/buffer.hpp                 (bliss::io::Buffer)
  - src/src/concurrent/lockfree_queue.hpp (bliss::concurrent::ThreadSafeQueue)
  - src/src/io/CommunicationLayer.hpp     (CommunicationLayer)

The embedding is sequential: each C++ member function becomes a pure Lean
function on an explicit state; machine integers become Nat/Int, with the
queue's bit-packed 64-bit atomic size word modelled as a Nat below 2^64.
Thrown C++ exceptions become `Except` errors.
-/

namespace Kmerind

/-- C++ exceptions thrown by the embedded code: std::invalid_argument and
std::length_error. -/
inductive CppError where
  | invalidArgument
  | lengthError
deriving DecidableEq, Repr

/-! ## bliss::io::Buffer (src/src/io/buffer.hpp)

The byte region `data` is a `List Nat` of length `capacity`; `size` is the
committed write cursor; `blocked` the accepting flag.  The thread-safe
`append` (buffer.hpp lines 377-395) serializes reservations through a mutex,
so its sequential rendering is: reserve `size += count`, roll back and fail
if the reservation exceeds capacity, otherwise memcpy the payload at the
reserved offset. -/

structure Buffer where
  capacity : Nat
  size : Nat
  blocked : Bool
  data : List Nat
deriving DecidableEq, Repr

/-- memcpy(dest + offset, src, count) on list-modelled byte arrays. -/
def memcpyAt (dest : List Nat) (offset : Nat) (src : List Nat) (count : Nat) : List Nat :=
  dest.take offset ++ src.take count ++ dest.drop (offset + count)

/-- Buffer constructor (buffer.hpp lines 125-131): allocates and zeroes
`capacity` bytes, throws std::invalid_argument when the capacity is 0. -/
def Buffer.construct (cap : Nat) : Except CppError Buffer :=
  if cap = 0 then .error .invalidArgument
  else .ok { capacity := cap, size := 0, blocked := false, data := List.replicate cap 0 }

def Buffer.getSize (b : Buffer) : Nat := b.size

def Buffer.isBlocked (b : Buffer) : Bool := b.blocked

def Buffer.isEmpty (b : Buffer) : Bool := b.getSize == 0

def Buffer.getData (b : Buffer) : List Nat := b.data

/-- block() (buffer.hpp lines 261-272): stop accepting appends. -/
def Buffer.block (b : Buffer) : Buffer := { b with blocked := true }

/-- clear() (buffer.hpp lines 319-322): reset size to 0 and unblock. -/
def Buffer.clear (b : Buffer) : Buffer := { b with size := 0, blocked := false }

/-- append (thread-safe version, buffer.hpp lines 377-395).
Checks capacity == 0 (throws std::length_error), then the blocked flag,
then reserves `count` bytes at offset `size` and copies the payload; a
reservation past `capacity` is rolled back and reported as failure. -/
def Buffer.append (b : Buffer) (src : List Nat) (count : Nat) : Except CppError (Buffer × Bool) :=
  if b.capacity = 0 then .error .lengthError
  else if b.blocked then .ok (b, false)
  else
    let s := b.size
    if s + count > b.capacity then .ok (b, false)
    else .ok ({ b with size := s + count, data := memcpyAt b.data s src count }, true)

/-- The residual state the move constructor and move assignment operator
leave in the moved-from Buffer (buffer.hpp lines 100-107 and 181-200):
capacity 0, size 0, blocked, null data. -/
def Buffer.movedResidual : Buffer :=
  { capacity := 0, size := 0, blocked := true, data := [] }

/-- Move construction (buffer.hpp lines 100-107, via lines 160): the new
object takes the fields, the source is left in the residual state. -/
def Buffer.moveConstruct (other : Buffer) : Buffer × Buffer :=
  ({ capacity := other.capacity, size := other.size, blocked := other.blocked,
     data := other.data },
   Buffer.movedResidual)

/-- Move assignment (buffer.hpp lines 181-200) between distinct objects
(the source guards on `this->data != other.data`; this models the
distinct-object branch).  Returns (new target, residual source). -/
def Buffer.moveAssign (_target other : Buffer) : Buffer × Buffer :=
  ({ capacity := other.capacity, size := other.size, blocked := other.blocked,
     data := other.data },
   Buffer.movedResidual)

/-! ## bliss::concurrent::ThreadSafeQueue (src/src/concurrent/lockfree_queue.hpp)

The single atomic int64 `size` packs the push-disabled bit into the sign bit
(lockfree_queue.hpp line 63).  It is modelled by `sizeWord`, the value of
that int64 reinterpreted as an unsigned 64-bit word, i.e. a Nat below 2^64:
bit 63 set means push disabled, the low 63 bits are the length.  The element
store (moodycamel queue) is the list `items`; its enqueue is modelled as
always succeeding, which is the non-allocation-failure behavior. -/

/-- 2^64, the modulus of the unsigned view of the atomic size word. -/
def u64Mod : Nat := 18446744073709551616

/-- 2^63: the uint64 view of int64's lowest() value / the sign (push-disabled) bit. -/
def pushDisabledBit : Nat := 9223372036854775808

/-- MAX_SIZE = int64 max = 2^63 - 1 (lockfree_queue.hpp line 93). -/
def qMAXSIZE : Nat := 9223372036854775807

structure ThreadSafeQueue (T : Type) where
  capacity : Nat
  sizeWord : Nat
  items : List T

/-- Queue constructor (lockfree_queue.hpp lines 99-107): throws
std::invalid_argument when the capacity is 0, otherwise starts with a zero
size word (empty, push enabled).  The source asserts capacity <= MAX_SIZE. -/
def ThreadSafeQueue.construct (T : Type) (cap : Nat) : Except CppError (ThreadSafeQueue T) :=
  if cap = 0 then .error .invalidArgument
  else .ok { capacity := cap, sizeWord := 0, items := [] }

/-- getSize (lockfree_queue.hpp lines 163-166): size & MAX_SIZE, the low 63
bits of the word. -/
def ThreadSafeQueue.getSize {T : Type} (q : ThreadSafeQueue T) : Nat :=
  q.sizeWord % pushDisabledBit

/-- canPush (lockfree_queue.hpp lines 205-208): the int64 load is
nonnegative, i.e. the sign bit is clear. -/
def ThreadSafeQueue.canPush {T : Type} (q : ThreadSafeQueue T) : Bool :=
  q.sizeWord < pushDisabledBit

/-- canPop (lockfree_queue.hpp lines 215-222): the word differs from
lowest(), i.e. not (push disabled with length 0). -/
def ThreadSafeQueue.canPop {T : Type} (q : ThreadSafeQueue T) : Bool :=
  q.sizeWord != pushDisabledBit

/-- disablePush (lockfree_queue.hpp lines 195-199): fetch_or with lowest()
sets the sign bit and leaves the length. -/
def ThreadSafeQueue.disablePush {T : Type} (q : ThreadSafeQueue T) : ThreadSafeQueue T :=
  { q with sizeWord := q.sizeWord ||| pushDisabledBit }

/-- enablePush (lockfree_queue.hpp lines 185-190): fetch_and with MAX_SIZE
clears the sign bit and leaves the length. -/
def ThreadSafeQueue.enablePush {T : Type} (q : ThreadSafeQueue T) : ThreadSafeQueue T :=
  { q with sizeWord := q.sizeWord % pushDisabledBit }

/-- tryPush (lockfree_queue.hpp lines 248-256): fetch_add(1) reserves a
slot and yields the prior word `v`; the reservation is kept only when
`v`, reinterpreted as uint64, is below the capacity (which rules out both a
full queue and the sign bit being set); otherwise fetch_sub(1) rolls the
reservation back. -/
def ThreadSafeQueue.tryPush {T : Type} (q : ThreadSafeQueue T) (data : T) :
    ThreadSafeQueue T × Bool :=
  let v := q.sizeWord
  let q1 : ThreadSafeQueue T := { q with sizeWord := (q.sizeWord + 1) % u64Mod }
  if v < q.capacity then
    ({ q1 with items := q1.items ++ [data] }, true)
  else
    ({ q1 with sizeWord := (q1.sizeWord + (u64Mod - 1)) % u64Mod }, false)

/-- tryPop (lockfree_queue.hpp lines 370-377): dequeue first, then
decrement the word on success. -/
def ThreadSafeQueue.tryPop {T : Type} (q : ThreadSafeQueue T) :
    ThreadSafeQueue T × Option T :=
  match q.items with
  | [] => (q, none)
  | x :: rest =>
      ({ q with items := rest, sizeWord := (q.sizeWord + (u64Mod - 1)) % u64Mod }, some x)

/-- Result of waitAndPop in the sequential (frozen-state) semantics:
success with the popped element, failure with the unchanged queue, or the
retry loop never exiting. -/
inductive PopResult (T : Type) where
  | success (x : T) (q : ThreadSafeQueue T)
  | failure (q : ThreadSafeQueue T)
  | blocks

/-- waitAndPop (lockfree_queue.hpp lines 394-408): try_dequeue, retrying
while the dequeue fails and canPop() holds; on a successful dequeue the
word is decremented.  With no other thread to change the state, an empty
queue with canPop() true retries forever (`blocks`); an empty queue with
canPop() false returns failure leaving the queue unchanged. -/
def ThreadSafeQueue.waitAndPop {T : Type} (q : ThreadSafeQueue T) : PopResult T :=
  match q.items with
  | x :: rest =>
      .success x { q with items := rest, sizeWord := (q.sizeWord + (u64Mod - 1)) % u64Mod }
  | [] => if q.canPop then .blocks else .failure q

/-- Well-formed reachable queue states: positive capacity within int64
range (the constructor checks 0 and asserts MAX_SIZE), the length within
the 63 low bits, and the size word packing exactly (pushDisabled?, length). -/
def ThreadSafeQueue.WF {T : Type} (q : ThreadSafeQueue T) : Prop :=
  0 < q.capacity ∧ q.capacity < pushDisabledBit ∧ q.items.length < qMAXSIZE ∧
    (q.sizeWord = q.items.length ∨ q.sizeWord = pushDisabledBit + q.items.length)

instance {T : Type} [DecidableEq T] (q : ThreadSafeQueue T) : Decidable q.WF := by
  unfold ThreadSafeQueue.WF; infer_instance

/-! ## Association-list maps

`std::unordered_map` / `std::map` / `std::unordered_set` state is modelled
by association lists keyed by Int with the usual find / assign / erase, plus
the defaulting `operator[]` that inserts a zero entry for an absent key. -/

/-- find: the mapped value, if the key is present. -/
def alookup {V : Type} : List (Int × V) → Int → Option V
  | [], _ => none
  | (k, v) :: rest, key => if k = key then some v else alookup rest key

/-- operator[] followed by assignment: update in place or insert. -/
def aset {V : Type} : List (Int × V) → Int → V → List (Int × V)
  | [], key, v => [(key, v)]
  | (k, w) :: rest, key, v =>
      if k = key then (k, v) :: rest else (k, w) :: aset rest key v

/-- erase by key. -/
def aerase {V : Type} : List (Int × V) → Int → List (Int × V)
  | [], _ => []
  | (k, w) :: rest, key => if k = key then rest else (k, w) :: aerase rest key

/-- unordered_map (int to int) operator[] read: value-initializes (to 0) and
inserts an entry when the key is absent, and returns the mapped value. -/
def aindexZero (m : List (Int × Int)) (key : Int) : List (Int × Int) × Int :=
  match alookup m key with
  | some v => (m, v)
  | none => (m ++ [(key, 0)], 0)

/-- unordered_set insert. -/
def sinsert (s : List Int) (tag : Int) : List Int :=
  if tag ∈ s then s else s ++ [tag]

/-! ## MessageBuffers (component C)

The repository's io/message_buffers.hpp is not under src/ (only its users
are), so this component is modelled from the spec. -/

/-- Fallback Buffer used for an out-of-pool id lookup. -/
def nullBuffer : Buffer := { capacity := 0, size := 0, blocked := true, data := [] }

/-- A fresh (empty, unblocked, zeroed) pool buffer of the given capacity. -/
def freshBuffer (cap : Nat) : Buffer :=
  { capacity := cap, size := 0, blocked := false, data := List.replicate cap 0 }

/-- Modelled from the spec: io/message_buffers.hpp (bliss::io::MessageBuffers,
component C of spec section 4.3) is missing from src/.  It owns one active
buffer per destination in [0, nDest), a pool of buffers addressed by
BufferIdType (int, sentinel -1 = none), and an internal free-list; the pool
size is at least P plus a margin. -/
structure MessageBuffers where
  nDest : Nat
  bufCapacity : Nat
  pool : List Buffer
  active : List Int
  freeList : List Nat
deriving DecidableEq, Repr

/-- Modelled from the spec: construction gives every destination an active
empty buffer and stocks the free-list with spares (pool size = P + margin). -/
def MessageBuffers.mkNew (nDest cap : Nat) : MessageBuffers :=
  { nDest := nDest, bufCapacity := cap,
    pool := List.replicate (2 * nDest) (freshBuffer cap),
    active := (List.range nDest).map Int.ofNat,
    freeList := (List.range nDest).map (fun i => i + nDest) }

/-- Modelled from the spec: getBackBuffer(id) returns a read-only view on
the buffer identified by id. -/
def MessageBuffers.getBackBuffer (mb : MessageBuffers) (id : Int) : Buffer :=
  mb.pool.getD id.toNat nullBuffer

/-- Modelled from the spec: getActiveIds() lists the currently-active
buffer ids across all destinations, in destination order. -/
def MessageBuffers.getActiveIds (mb : MessageBuffers) : List Int :=
  mb.active

/-- Modelled from the spec: append(bytes, n, d) forwards to the active
buffer for d; if that buffer rejects the append (full or blocked), the
component blocks the current active buffer, swaps in a fresh buffer from
the free-list, records the old buffer's id in the return tuple, and asks
the caller to retry (success = false).  Returns (state, success, fullId
or -1). -/
def MessageBuffers.append (mb : MessageBuffers) (src : List Nat) (count : Nat) (dst : Int) :
    MessageBuffers × Bool × Int :=
  let id := mb.active.getD dst.toNat (-1)
  let buf := mb.getBackBuffer id
  match buf.append src count with
  | .ok (buf', true) => ({ mb with pool := mb.pool.set id.toNat buf' }, true, -1)
  | _ =>
      match mb.freeList with
      | newId :: rest =>
          ({ mb with pool := mb.pool.set id.toNat buf.block,
                     active := mb.active.set dst.toNat (Int.ofNat newId),
                     freeList := rest }, false, id)
      | [] => (mb, false, -1)

/-- Modelled from the spec: release(id) returns a drained buffer to the
free-list; per the Buffer lifecycle it is reset to empty-unblocked. -/
def MessageBuffers.releaseBuffer (mb : MessageBuffers) (id : Int) : MessageBuffers :=
  { mb with pool := mb.pool.set id.toNat (mb.getBackBuffer id).clear,
            freeList := mb.freeList ++ [id.toNat] }

/-! ## CommunicationLayer (src/src/io/CommunicationLayer.hpp)

The state gathers the member containers.  MPI_Request entries are
abstracted to a completion flag on recvInProgress (MPI_Test outcome);
postings onto the transport are recorded in sendInProgress.  The
bounded queues sendQueue / recvQueue are modelled by their contents, with
waitAndPush (which blocks until space, never failing while push stays
enabled) rendered sequentially as list append.  Of callbackFunctions only
the registered-tag set is relevant here, the function values being opaque
user code.  printf diagnostics are recorded in `log`. -/

/-- Diagnostics printed by CommunicationLayer member functions. -/
inductive LogEvent where
  | errAlreadyRegistered (tag : Int)
  | errAlreadyFinished (tag : Int)
  | errSendTagFlushed (tag : Int)
  | recvEndSignal (tag src remaining : Int)
  | errNegativeRemaining (tag : Int)
deriving DecidableEq, Repr

/-- ReceivedMessage (CommunicationLayer.hpp lines 49-64): owned bytes
(none = nullptr), count, tag, source rank. -/
structure ReceivedMessage where
  data : Option (List Nat)
  count : Nat
  tag : Int
  src : Int
deriving DecidableEq, Repr

/-- SendQueueElement (CommunicationLayer.hpp lines 67-80): buffer id
(-1 = end-of-stream marker), tag, destination rank. -/
structure SendQueueElement where
  bufferId : Int
  tag : Int
  dst : Int
deriving DecidableEq, Repr

structure CommLayerState where
  recvInProgress : List (Bool × ReceivedMessage)
  sendInProgress : List SendQueueElement
  sendQueue : List SendQueueElement
  recvQueue : List ReceivedMessage
  buffers : List (Int × MessageBuffers)
  sendAccept : List Int
  recvRemaining : List (Int × Int)
  callbackFunctions : List Int
  commSize : Int
  commRank : Int
  log : List LogEvent
deriving DecidableEq, Repr

/-- addReceiveCallback (CommunicationLayer.hpp lines 134-159).  Rejects a
tag with a registered callback; then reads `recvRemaining[tag]` (the C++
operator[], which inserts a 0 entry for an absent key) and rejects when
that value is 0; otherwise registers the callback, sets
`recvRemaining[tag] = commSize` and inserts the tag into sendAccept. -/
def addReceiveCallback (st : CommLayerState) (tag : Int) : CommLayerState :=
  if tag ∈ st.callbackFunctions then
    { st with log := st.log ++ [.errAlreadyRegistered tag] }
  else
    let rr := aindexZero st.recvRemaining tag
    if rr.2 = 0 then
      { st with recvRemaining := rr.1, log := st.log ++ [.errAlreadyFinished tag] }
    else
      { st with callbackFunctions := sinsert st.callbackFunctions tag,
                recvRemaining := aset rr.1 tag st.commSize,
                sendAccept := sinsert st.sendAccept tag }

/-- The append-retry loop body of sendMessage (CommunicationLayer.hpp
lines 191-206), with an explicit attempt budget: each iteration calls
`buffers[tag].append`; on success the loop exits, otherwise a returned
full-buffer id (other than -1) naming a non-empty back buffer is
waitAndPush-ed onto the outbound queue as (id, tag, dst) and the append is
retried.  `none` models the loop never succeeding (as the source would
spin forever, e.g. for count above the buffer capacity). -/
def sendMsgLoop (tag dst : Int) (src : List Nat) (count : Nat) :
    Nat → MessageBuffers → List SendQueueElement →
    Option (MessageBuffers × List SendQueueElement)
  | 0, _, _ => none
  | fuel + 1, mb, acc =>
      match mb.append src count dst with
      | (mb', true, _) => some (mb', acc)
      | (mb', false, fullId) =>
          let acc' :=
            if fullId ≠ -1 ∧ (mb'.getBackBuffer fullId).isEmpty = false then
              acc ++ [⟨fullId, tag, dst⟩]
            else acc
          sendMsgLoop tag dst src count fuel mb' acc'

/-- sendMessage (CommunicationLayer.hpp lines 172-208).  The opening guard
is transcribed as written in the source: the call logs an error and
returns when `sendAccept.find(tag) != sendAccept.end()`, i.e. when the tag
IS in sendAccept.  Otherwise the per-tag MessageBuffers is lazily created
(commSize destinations, 8192-byte buffers) and the append loop runs; two
attempts suffice in this sequential model because a failed first attempt
swaps in a fresh empty buffer. -/
def sendMessage (st : CommLayerState) (src : List Nat) (count : Nat) (dstRank tag : Int) :
    Option CommLayerState :=
  if tag ∈ st.sendAccept then
    some { st with log := st.log ++ [.errSendTagFlushed tag] }
  else
    let bufs :=
      match alookup st.buffers tag with
      | some _ => st.buffers
      | none => aset st.buffers tag (MessageBuffers.mkNew st.commSize.toNat 8192)
    let mb := (alookup bufs tag).getD (MessageBuffers.mkNew st.commSize.toNat 8192)
    match sendMsgLoop tag dstRank src count 2 mb [] with
    | some (mb', newSends) =>
        some { st with buffers := aset bufs tag mb',
                       sendQueue := st.sendQueue ++ newSends }
    | none => none

/-- The flush loop (CommunicationLayer.hpp lines 227-239): iterate the
active ids with a destination counter i; for a valid id naming a non-empty
back buffer, waitAndPush (id, tag, i); then always waitAndPush the
end-of-stream marker (-1, tag, i). -/
def flushLoop (mb : MessageBuffers) (tag : Int) : List Int → Int → List SendQueueElement
  | [], _ => []
  | id :: rest, i =>
      (if id ≠ -1 ∧ (mb.getBackBuffer id).isEmpty = false then [⟨id, tag, i⟩] else []) ++
        (⟨-1, tag, i⟩ :: flushLoop mb tag rest (i + 1))

/-- flush (CommunicationLayer.hpp lines 214-244).  Returns unchanged when
no MessageBuffers exist for the tag, or when the tag is no longer in
sendAccept; otherwise runs the flush loop over getActiveIds() and then
erases the tag from sendAccept. -/
def flush (st : CommLayerState) (tag : Int) : CommLayerState :=
  match alookup st.buffers tag with
  | none => st
  | some mb =>
      if tag ∈ st.sendAccept then
        { st with sendQueue := st.sendQueue ++ flushLoop mb tag mb.getActiveIds 0,
                  sendAccept := st.sendAccept.erase tag }
      else st

/-- tryStartSend (CommunicationLayer.hpp lines 314-361).  Pops at most one
outbound element.  A marker (bufferId -1) to self is pushed directly onto
the inbound queue as (nullptr, 0, tag, rank); a marker to a remote rank is
posted to the transport (recorded in sendInProgress).  A data element to
self has the back buffer's committed bytes copied into a fresh array that
is pushed onto the inbound queue, after which the buffer is released; a
data element to a remote rank is posted to the transport. -/
def tryStartSend (st : CommLayerState) : CommLayerState :=
  match st.sendQueue with
  | [] => st
  | se :: rest =>
      let st1 := { st with sendQueue := rest }
      if se.bufferId = -1 then
        if se.dst = st.commRank then
          { st1 with recvQueue := st1.recvQueue ++ [⟨none, 0, se.tag, st.commRank⟩] }
        else
          { st1 with sendInProgress := st1.sendInProgress ++ [se] }
      else
        let mb := (alookup st.buffers se.tag).getD (MessageBuffers.mkNew 0 0)
        let buf := mb.getBackBuffer se.bufferId
        let count := buf.getSize
        if se.dst = st.commRank then
          { st1 with recvQueue := st1.recvQueue ++
                       [⟨some (buf.getData.take count), count, se.tag, st.commRank⟩],
                     buffers := aset st1.buffers se.tag (mb.releaseBuffer se.bufferId) }
        else
          { st1 with sendInProgress := st1.sendInProgress ++ [se] }

/-- The completed-receive handler inside finishReceives
(CommunicationLayer.hpp lines 430-458).  A zero-count (terminating)
message decrements `recvRemaining[tag]` (operator[], inserting 0 for an
absent key) and prints the signal; when the value reaches 0 the tag's
entry is erased and the marker is pushed onto the inbound queue; the
source then re-tests `recvRemaining[tag] == 0` in the else-if that guards
the NEGATIVE diagnostic, transcribed verbatim.  A nonzero-count message is
pushed onto the inbound queue. -/
def processCompletedRecv (st : CommLayerState) (msg : ReceivedMessage) : CommLayerState :=
  if msg.count = 0 then
    let rr := aindexZero st.recvRemaining msg.tag
    let v' := rr.2 - 1
    let rr1 := aset rr.1 msg.tag v'
    let st1 := { st with recvRemaining := rr1,
                         log := st.log ++ [.recvEndSignal msg.tag msg.src v'] }
    if v' = 0 then
      { st1 with recvRemaining := aerase rr1 msg.tag,
                 recvQueue := st1.recvQueue ++ [msg] }
    else if v' = 0 then
      { st1 with log := st1.log ++ [.errNegativeRemaining msg.tag] }
    else st1
  else
    { st with recvQueue := st.recvQueue ++ [msg] }

/-- The while loop of finishReceives (CommunicationLayer.hpp lines
418-468): process completed receives oldest-first, stopping at the first
one still in flight. -/
def finishReceivesLoop (st : CommLayerState) :
    List (Bool × ReceivedMessage) → CommLayerState
  | [] => { st with recvInProgress := [] }
  | (fin, msg) :: rest =>
      if fin then finishReceivesLoop (processCompletedRecv st msg) rest
      else { st with recvInProgress := (fin, msg) :: rest }

def finishReceives (st : CommLayerState) : CommLayerState :=
  finishReceivesLoop st st.recvInProgress

/-! ## Claims about Buffer -/

/-- C5: for every Buffer with capacity > 0, the thread-safe append returns
false iff the buffer is blocked or size + count would exceed capacity; on
false the buffer is unchanged; on true the size advances by exactly count
and the count bytes of the payload are written at the previous size. -/
theorem buffer_append_spec (b : Buffer) (src : List Nat) (count : Nat)
    (hcap : 0 < b.capacity) :
    ∃ b' ok, b.append src count = .ok (b', ok) ∧
      (ok = false ↔ (b.blocked = true ∨ b.size + count > b.capacity)) ∧
      (ok = false → b' = b) ∧
      (ok = true → b'.size = b.size + count ∧ b'.blocked = b.blocked ∧
        b'.capacity = b.capacity ∧
        b'.data = b.data.take b.size ++ src.take count ++ b.data.drop (b.size + count)) := by
  have h0 : ¬ b.capacity = 0 := by omega
  by_cases hb : b.blocked = true
  · refine ⟨b, false, ?_, ?_, fun _ => rfl, fun h => by cases h⟩
    · simp [Buffer.append, h0, hb]
    · simp [hb]
  · by_cases hc : b.size + count > b.capacity
    · refine ⟨b, false, ?_, ?_, fun _ => rfl, fun h => by cases h⟩
      · simp [Buffer.append, h0, hb, hc]
      · simp [hc]
    · refine ⟨{ b with size := b.size + count, data := memcpyAt b.data b.size src count },
              true, ?_, ?_, ?_, ?_⟩
      · simp [Buffer.append, h0, hb, hc]
      · simp [hb, hc]
      · exact fun h => by cases h
      · exact fun _ => ⟨rfl, rfl, rfl, rfl⟩

/-- Witness for C5: a concrete successful and specified append. -/
theorem buffer_append_spec_witness :
    0 < (Buffer.mk 4 1 false [9, 0, 0, 0]).capacity ∧
    ∃ b' ok, (Buffer.mk 4 1 false [9, 0, 0, 0]).append [7, 7] 2 = .ok (b', ok) ∧
      (ok = false ↔ ((Buffer.mk 4 1 false [9, 0, 0, 0]).blocked = true ∨
        (Buffer.mk 4 1 false [9, 0, 0, 0]).size + 2 > (Buffer.mk 4 1 false [9, 0, 0, 0]).capacity)) ∧
      (ok = false → b' = Buffer.mk 4 1 false [9, 0, 0, 0]) ∧
      (ok = true → b'.size = (Buffer.mk 4 1 false [9, 0, 0, 0]).size + 2 ∧
        b'.blocked = (Buffer.mk 4 1 false [9, 0, 0, 0]).blocked ∧
        b'.capacity = (Buffer.mk 4 1 false [9, 0, 0, 0]).capacity ∧
        b'.data = (Buffer.mk 4 1 false [9, 0, 0, 0]).data.take (Buffer.mk 4 1 false [9, 0, 0, 0]).size
          ++ ([7, 7] : List Nat).take 2
          ++ (Buffer.mk 4 1 false [9, 0, 0, 0]).data.drop ((Buffer.mk 4 1 false [9, 0, 0, 0]).size + 2)) :=
  ⟨by decide, buffer_append_spec (Buffer.mk 4 1 false [9, 0, 0, 0]) [7, 7] 2 (by decide)⟩

/-- C9: constructing a Buffer or a ThreadSafeQueue with capacity 0 throws
std::invalid_argument; any positive capacity yields the initial state
(buffer: size 0 unblocked; queue: length 0, push enabled) with no other
exception. -/
theorem construct_capacity_spec :
    Buffer.construct 0 = .error .invalidArgument ∧
    ThreadSafeQueue.construct SendQueueElement 0 = .error .invalidArgument ∧
    (∀ cap : Nat, 0 < cap →
      ∃ b, Buffer.construct cap = .ok b ∧ b.size = 0 ∧ b.blocked = false ∧ b.capacity = cap) ∧
    (∀ (T : Type) (cap : Nat), 0 < cap →
      ∃ q : ThreadSafeQueue T, ThreadSafeQueue.construct T cap = .ok q ∧
        q.getSize = 0 ∧ q.canPush = true ∧ q.capacity = cap) := by
  refine ⟨rfl, rfl, fun cap hcap => ?_, fun T cap hcap => ?_⟩
  · refine ⟨⟨cap, 0, false, List.replicate cap 0⟩, ?_, rfl, rfl, rfl⟩
    unfold Buffer.construct
    rw [if_neg (by omega)]
  · refine ⟨⟨cap, 0, []⟩, ?_, rfl, rfl, rfl⟩
    unfold ThreadSafeQueue.construct
    rw [if_neg (by omega)]

/-- Witness for C9: the positive-capacity clauses applied at 3 and 2. -/
theorem construct_capacity_spec_witness :
    (0 < 3 ∧ ∃ b, Buffer.construct 3 = .ok b ∧ b.size = 0 ∧ b.blocked = false ∧ b.capacity = 3) ∧
    (0 < 2 ∧ ∃ q : ThreadSafeQueue Nat, ThreadSafeQueue.construct Nat 2 = .ok q ∧
      q.getSize = 0 ∧ q.canPush = true ∧ q.capacity = 2) :=
  ⟨⟨by decide, construct_capacity_spec.2.2.1 3 (by decide)⟩,
   ⟨by decide, construct_capacity_spec.2.2.2 Nat 2 (by decide)⟩⟩

/-- C10: a moved-from Buffer (move construction or move assignment) is left
with capacity 0, size 0, blocked and null data, and every later append on
it throws std::length_error — the capacity check precedes the blocked
check, so it does not return false the way an ordinary blocked buffer
(final conjunct, capacity 1) does. -/
theorem buffer_moved_from_spec (b t : Buffer) :
    (Buffer.moveConstruct b).2.capacity = 0 ∧
    (Buffer.moveConstruct b).2.size = 0 ∧
    (Buffer.moveConstruct b).2.blocked = true ∧
    (Buffer.moveConstruct b).2.data = [] ∧
    (Buffer.moveAssign t b).2 = (Buffer.moveConstruct b).2 ∧
    (∀ src count, (Buffer.moveConstruct b).2.append src count = .error .lengthError) ∧
    (∀ src count, (Buffer.mk 1 0 true [0]).append src count = .ok (Buffer.mk 1 0 true [0], false)) :=
  ⟨rfl, rfl, rfl, rfl, rfl, fun _ _ => rfl, fun _ _ => rfl⟩

/-! ## Claims about ThreadSafeQueue -/

/-- C6: for every well-formed queue state with length at most capacity,
tryPush succeeds iff push is enabled and the length is strictly below the
capacity; success enqueues the element and raises the length by 1; failure
rolls the reservation back, leaving the state unchanged. -/
theorem tryPush_spec {T : Type} (q : ThreadSafeQueue T) (x : T)
    (hwf : q.WF) (hlen : q.items.length ≤ q.capacity) :
    ((q.tryPush x).2 = true ↔ (q.canPush = true ∧ q.items.length < q.capacity)) ∧
    ((q.tryPush x).2 = true →
      (q.tryPush x).1.items = q.items ++ [x] ∧
      (q.tryPush x).1.getSize = q.getSize + 1 ∧
      (q.tryPush x).1.canPush = q.canPush ∧
      (q.tryPush x).1.capacity = q.capacity) ∧
    ((q.tryPush x).2 = false → (q.tryPush x).1 = q) := by
  obtain ⟨cap, w, items⟩ := q
  obtain ⟨hc0, hcb, hlb, hw⟩ := hwf
  dsimp only at hlen hc0 hcb hlb hw ⊢
  simp only [pushDisabledBit] at hcb hw
  simp only [qMAXSIZE] at hlb
  rcases hw with hw | hw <;> subst hw
  · by_cases hlt : items.length < cap
    · have hr : (ThreadSafeQueue.mk cap items.length items).tryPush x =
          (⟨cap, (items.length + 1) % u64Mod, items ++ [x]⟩, true) := by
        simp only [ThreadSafeQueue.tryPush]
        rw [if_pos hlt]
      rw [hr]
      refine ⟨?_, ?_, ?_⟩
      · simp only [true_iff]
        refine ⟨?_, hlt⟩
        simp only [ThreadSafeQueue.canPush, pushDisabledBit, decide_eq_true_eq]
        omega
      · intro _
        refine ⟨rfl, ?_, ?_, rfl⟩
        · simp only [ThreadSafeQueue.getSize, pushDisabledBit, u64Mod]
          omega
        · simp only [ThreadSafeQueue.canPush, pushDisabledBit, u64Mod, decide_eq_decide]
          omega
      · intro h
        cases h
    · have hr : (ThreadSafeQueue.mk cap items.length items).tryPush x =
          (⟨cap, ((items.length + 1) % u64Mod + (u64Mod - 1)) % u64Mod, items⟩, false) := by
        simp only [ThreadSafeQueue.tryPush]
        rw [if_neg hlt]
      have hs : ((items.length + 1) % u64Mod + (u64Mod - 1)) % u64Mod = items.length := by
        simp only [u64Mod]
        omega
      rw [hr, hs]
      refine ⟨?_, ?_, ?_⟩
      · simp [hlt]
      · intro h
        cases h
      · intro _
        rfl
  · have hnc : ¬ (9223372036854775808 + items.length < cap) := by omega
    have hr : (ThreadSafeQueue.mk cap (9223372036854775808 + items.length) items).tryPush x =
        (⟨cap, ((9223372036854775808 + items.length + 1) % u64Mod + (u64Mod - 1)) % u64Mod,
          items⟩, false) := by
      simp only [ThreadSafeQueue.tryPush]
      rw [if_neg hnc]
    have hs : ((9223372036854775808 + items.length + 1) % u64Mod + (u64Mod - 1)) % u64Mod =
        9223372036854775808 + items.length := by
      simp only [u64Mod]
      omega
    rw [hr, hs]
    refine ⟨?_, ?_, ?_⟩
    · constructor
      · intro h
        cases h
      · rintro ⟨hcp, -⟩
        exfalso
        simp only [ThreadSafeQueue.canPush, pushDisabledBit, decide_eq_true_eq] at hcp
        omega
    · intro h
      cases h
    · intro _
      rfl

/-- Witness for C6: a successful push onto an empty enabled queue of
capacity 2. -/
theorem tryPush_spec_witness :
    ((ThreadSafeQueue.mk 2 0 ([] : List Nat)).WF ∧
      (ThreadSafeQueue.mk 2 0 ([] : List Nat)).items.length ≤
        (ThreadSafeQueue.mk 2 0 ([] : List Nat)).capacity) ∧
    (((ThreadSafeQueue.mk 2 0 ([] : List Nat)).tryPush 7).2 = true ↔
        ((ThreadSafeQueue.mk 2 0 ([] : List Nat)).canPush = true ∧
          (ThreadSafeQueue.mk 2 0 ([] : List Nat)).items.length <
            (ThreadSafeQueue.mk 2 0 ([] : List Nat)).capacity)) ∧
    (((ThreadSafeQueue.mk 2 0 ([] : List Nat)).tryPush 7).2 = true →
      ((ThreadSafeQueue.mk 2 0 ([] : List Nat)).tryPush 7).1.items =
          (ThreadSafeQueue.mk 2 0 ([] : List Nat)).items ++ [7] ∧
      ((ThreadSafeQueue.mk 2 0 ([] : List Nat)).tryPush 7).1.getSize =
          (ThreadSafeQueue.mk 2 0 ([] : List Nat)).getSize + 1 ∧
      ((ThreadSafeQueue.mk 2 0 ([] : List Nat)).tryPush 7).1.canPush =
          (ThreadSafeQueue.mk 2 0 ([] : List Nat)).canPush ∧
      ((ThreadSafeQueue.mk 2 0 ([] : List Nat)).tryPush 7).1.capacity =
          (ThreadSafeQueue.mk 2 0 ([] : List Nat)).capacity) ∧
    (((ThreadSafeQueue.mk 2 0 ([] : List Nat)).tryPush 7).2 = false →
      ((ThreadSafeQueue.mk 2 0 ([] : List Nat)).tryPush 7).1 =
        ThreadSafeQueue.mk 2 0 ([] : List Nat)) :=
  ⟨⟨by decide, by decide⟩,
   tryPush_spec (ThreadSafeQueue.mk 2 0 ([] : List Nat)) 7 (by decide) (by decide)⟩

/-- C7: for every well-formed queue state that is non-empty or has push
disabled, waitAndPop pops the head (decrementing the length) whenever the
queue is non-empty — even with push disabled — and returns failure with
the queue unchanged exactly when push is disabled and the queue is empty. -/
theorem waitAndPop_spec {T : Type} (q : ThreadSafeQueue T)
    (hwf : q.WF) (hne : q.items ≠ [] ∨ q.canPush = false) :
    (∀ x rest, q.items = x :: rest →
      q.waitAndPop = .success x { q with items := rest, sizeWord := q.sizeWord - 1 } ∧
      ({ q with items := rest, sizeWord := q.sizeWord - 1 } : ThreadSafeQueue T).getSize
        = q.getSize - 1) ∧
    (q.items = [] → q.canPush = false → q.waitAndPop = .failure q) ∧
    (∀ q', q.waitAndPop = .failure q' → q' = q ∧ q.items = [] ∧ q.canPush = false) := by
  obtain ⟨cap, w, items⟩ := q
  obtain ⟨hc0, hcb, hlb, hw⟩ := hwf
  dsimp only at hc0 hcb hlb hw hne ⊢
  simp only [pushDisabledBit] at hcb hw
  simp only [qMAXSIZE] at hlb
  refine ⟨?_, ?_, ?_⟩
  · intro x rest hx
    subst hx
    simp only [List.length_cons] at hlb hw
    have hs : (w + (u64Mod - 1)) % u64Mod = w - 1 := by
      simp only [u64Mod]
      rcases hw with hw | hw <;> omega
    constructor
    · simp only [ThreadSafeQueue.waitAndPop, hs]
    · simp only [ThreadSafeQueue.getSize, pushDisabledBit]
      rcases hw with hw | hw <;> omega
  · intro hnil hcp
    subst hnil
    simp only [List.length_nil, Nat.add_zero] at hlb hw
    simp only [ThreadSafeQueue.canPush, pushDisabledBit, decide_eq_false_iff_not,
      not_lt] at hcp
    have hw0 : w = 9223372036854775808 := by
      rcases hw with hw | hw <;> omega
    subst hw0
    simp only [ThreadSafeQueue.waitAndPop, ThreadSafeQueue.canPop, pushDisabledBit]
    simp
  · intro q' hq
    cases hx : items with
    | cons x rest =>
        subst hx
        simp only [ThreadSafeQueue.waitAndPop] at hq
        exact PopResult.noConfusion hq
    | nil =>
        subst hx
        simp only [ThreadSafeQueue.waitAndPop] at hq
        by_cases hcp : (ThreadSafeQueue.mk cap w ([] : List T)).canPop = true
        · rw [if_pos hcp] at hq
          exact PopResult.noConfusion hq
        · rw [if_neg hcp] at hq
          have hq' := PopResult.noConfusion hq (fun h => h)
          refine ⟨hq'.symm, rfl, ?_⟩
          simp only [ThreadSafeQueue.canPop, bne_iff_ne, ne_eq, decide_eq_true_eq,
            not_not, pushDisabledBit] at hcp
          simp only [ThreadSafeQueue.canPush, pushDisabledBit, decide_eq_false_iff_not,
            not_lt]
          omega

/-- Witness for C7: a non-empty queue with push disabled still pops. -/
theorem waitAndPop_spec_witness :
    ((ThreadSafeQueue.mk 2 (pushDisabledBit + 1) ([5] : List Nat)).WF ∧
      ((ThreadSafeQueue.mk 2 (pushDisabledBit + 1) ([5] : List Nat)).items ≠ [] ∨
        (ThreadSafeQueue.mk 2 (pushDisabledBit + 1) ([5] : List Nat)).canPush = false)) ∧
    ((∀ x rest, (ThreadSafeQueue.mk 2 (pushDisabledBit + 1) ([5] : List Nat)).items = x :: rest →
      (ThreadSafeQueue.mk 2 (pushDisabledBit + 1) ([5] : List Nat)).waitAndPop =
        .success x { ThreadSafeQueue.mk 2 (pushDisabledBit + 1) ([5] : List Nat) with
                      items := rest,
                      sizeWord := (ThreadSafeQueue.mk 2 (pushDisabledBit + 1) ([5] : List Nat)).sizeWord - 1 } ∧
      ({ ThreadSafeQueue.mk 2 (pushDisabledBit + 1) ([5] : List Nat) with
          items := rest,
          sizeWord := (ThreadSafeQueue.mk 2 (pushDisabledBit + 1) ([5] : List Nat)).sizeWord - 1 }
          : ThreadSafeQueue Nat).getSize
        = (ThreadSafeQueue.mk 2 (pushDisabledBit + 1) ([5] : List Nat)).getSize - 1) ∧
    ((ThreadSafeQueue.mk 2 (pushDisabledBit + 1) ([5] : List Nat)).items = [] →
      (ThreadSafeQueue.mk 2 (pushDisabledBit + 1) ([5] : List Nat)).canPush = false →
      (ThreadSafeQueue.mk 2 (pushDisabledBit + 1) ([5] : List Nat)).waitAndPop =
        .failure (ThreadSafeQueue.mk 2 (pushDisabledBit + 1) ([5] : List Nat))) ∧
    (∀ q', (ThreadSafeQueue.mk 2 (pushDisabledBit + 1) ([5] : List Nat)).waitAndPop = .failure q' →
      q' = ThreadSafeQueue.mk 2 (pushDisabledBit + 1) ([5] : List Nat) ∧
      (ThreadSafeQueue.mk 2 (pushDisabledBit + 1) ([5] : List Nat)).items = [] ∧
      (ThreadSafeQueue.mk 2 (pushDisabledBit + 1) ([5] : List Nat)).canPush = false)) :=
  ⟨⟨by decide, Or.inl (by decide)⟩,
   waitAndPop_spec (ThreadSafeQueue.mk 2 (pushDisabledBit + 1) ([5] : List Nat))
     (by decide) (Or.inl (by decide))⟩

/-! ## Claims about CommunicationLayer -/

/-- A freshly constructed communication layer (P = 4, rank 0), before any
registration. -/
def freshState : CommLayerState :=
  { recvInProgress := [], sendInProgress := [], sendQueue := [], recvQueue := [],
    buffers := [], sendAccept := [], recvRemaining := [], callbackFunctions := [],
    commSize := 4, commRank := 0, log := [] }

/-- C2 (code bug): for a tag never registered before, addReceiveCallback is
claimed to store the callback, set recvRemaining[tag] = P and insert the
tag into sendAccept.  The code instead hits the `recvRemaining[tag] == 0`
early return — operator[] default-inserts 0 for the unseen tag — so the
call logs, registers nothing, leaves sendAccept unchanged, and pollutes
recvRemaining with a (tag, 0) entry. -/
theorem addReceiveCallback_fresh_tag_fails :
    addReceiveCallback freshState 1 =
      { freshState with recvRemaining := [(1, 0)],
                        log := [.errAlreadyFinished 1] } ∧
    1 ∉ (addReceiveCallback freshState 1).callbackFunctions ∧
    1 ∉ (addReceiveCallback freshState 1).sendAccept ∧
    alookup (addReceiveCallback freshState 1).recvRemaining 1 ≠ some 4 := by
  refine ⟨by rfl, by decide, by decide, by decide⟩

/-- A communication layer (P = 2, rank 0) where tag 1 is registered as the
spec intends: callback present, recvRemaining[1] = P, 1 ∈ sendAccept. -/
def regState : CommLayerState :=
  { recvInProgress := [], sendInProgress := [], sendQueue := [], recvQueue := [],
    buffers := [], sendAccept := [1], recvRemaining := [(1, 2)], callbackFunctions := [1],
    commSize := 2, commRank := 0, log := [] }

/-- Committed size of the active buffer for (tag, dst) after a sendMessage
call (0 when the call failed or no buffers exist). -/
def activeSizeFor (o : Option CommLayerState) (tag dst : Int) : Nat :=
  match o with
  | none => 0
  | some st =>
      match alookup st.buffers tag with
      | none => 0
      | some mb => (mb.getBackBuffer (mb.active.getD dst.toNat (-1))).getSize

/-- First committed byte of the active buffer for (tag, dst) after a
sendMessage call. -/
def activeByteFor (o : Option CommLayerState) (tag dst : Int) : Nat :=
  match o with
  | none => 0
  | some st =>
      match alookup st.buffers tag with
      | none => 0
      | some mb => (mb.getBackBuffer (mb.active.getD dst.toNat (-1))).data.headD 0

/-- C1 (code bug): the opening guard of sendMessage is inverted.  On a
state where tag 1 is registered (1 ∈ sendAccept), sendMessage logs the
"flushed already" error and returns with no bytes committed and no other
state change; on the unregistered tag 2 (2 ∉ sendAccept) the very same
call proceeds and commits the byte into the lazily created per-tag
buffers — the exact opposite of the claim. -/
theorem sendMessage_guard_inverted :
    (1 ∈ regState.sendAccept ∧
      sendMessage regState [42] 1 1 1 =
        some { regState with log := [.errSendTagFlushed 1] }) ∧
    (2 ∉ regState.sendAccept ∧
      activeSizeFor (sendMessage regState [42] 1 1 2) 2 1 = 1 ∧
      activeByteFor (sendMessage regState [42] 1 1 2) 2 1 = 42) := by
  refine ⟨⟨by decide, by rfl⟩, by decide, by rfl, by rfl⟩

/-- A communication layer (P = 2, rank 0) in which tag 1 has already been
fully drained: its recvRemaining entry was erased when it reached 0.  One
more completed end-of-stream marker for tag 1 sits in recvInProgress. -/
def erasedState : CommLayerState :=
  { recvInProgress := [(true, ⟨none, 0, 1, 1⟩)], sendInProgress := [], sendQueue := [],
    recvQueue := [], buffers := [], sendAccept := [], recvRemaining := [],
    callbackFunctions := [1], commSize := 2, commRank := 0, log := [] }

/-- C3 (code bug): a surplus end-of-stream marker drives
recvRemaining[1] to -1 (operator[] re-inserts 0, the decrement makes it
negative), but the guard of the NEGATIVE diagnostic is `else if
(recvRemaining[tag] == 0)` — a duplicate of the preceding test — so the
below-zero condition is never detected: no errNegativeRemaining event is
logged, contrary to the claim that it is detected and logged. -/
theorem finishReceives_negative_not_detected :
    finishReceives erasedState =
      { erasedState with recvInProgress := [],
                         recvRemaining := [(1, -1)],
                         log := [.recvEndSignal 1 1 (-1)] } ∧
    (∀ e ∈ (finishReceives erasedState).log, e ≠ .errNegativeRemaining 1) ∧
    (finishReceives erasedState).recvQueue = [] := by
  refine ⟨by rfl, by decide, by rfl⟩

/-- A communication layer (P = 2, rank 0) where tag 1 is registered but no
sendMessage has ever created its MessageBuffers. -/
def flushCxState : CommLayerState :=
  { recvInProgress := [], sendInProgress := [], sendQueue := [], recvQueue := [],
    buffers := [], sendAccept := [1], recvRemaining := [(1, 2)], callbackFunctions := [1],
    commSize := 2, commRank := 0, log := [] }

/-- C4 counterexample: on a state where tag 1 is registered but the
per-tag MessageBuffers were never created, flush(1) returns with the state
unchanged — the tag is NOT removed from sendAccept and no end-of-stream
marker is enqueued, refuting the claim as stated. -/
theorem flush_claim_counterexample :
    1 ∈ flushCxState.sendAccept ∧
    flush flushCxState 1 = flushCxState ∧
    1 ∈ (flush flushCxState 1).sendAccept ∧
    (flush flushCxState 1).sendQueue = [] := by
  refine ⟨by decide, by rfl, by decide, by rfl⟩

/-- Every position of the flush loop output carries an end-of-stream
marker for its destination. -/
theorem flushLoop_marker_mem (mb : MessageBuffers) (tag : Int) :
    ∀ (ids : List Int) (i : Int) (d : Nat), d < ids.length →
      SendQueueElement.mk (-1) tag (i + (d : Int)) ∈ flushLoop mb tag ids i := by
  intro ids
  induction ids with
  | nil =>
      intro i d hd
      exact absurd hd (by simp)
  | cons id rest ih =>
      intro i d hd
      cases d with
      | zero =>
          apply List.mem_append_right
          simp
      | succ d' =>
          apply List.mem_append_right
          apply List.mem_cons_of_mem
          have hcast : i + ((d' + 1 : Nat) : Int) = (i + 1) + (d' : Int) := by
            push_cast
            ring
          rw [hcast]
          exact ih (i + 1) d' (by simpa using hd)

/-- A valid, non-empty active buffer is enqueued by the flush loop for its
destination. -/
theorem flushLoop_data_mem (mb : MessageBuffers) (tag : Int) :
    ∀ (ids : List Int) (i : Int) (d : Nat), d < ids.length →
      ids.getD d (-1) ≠ -1 →
      (mb.getBackBuffer (ids.getD d (-1))).isEmpty = false →
      SendQueueElement.mk (ids.getD d (-1)) tag (i + (d : Int)) ∈ flushLoop mb tag ids i := by
  intro ids
  induction ids with
  | nil =>
      intro i d hd
      exact absurd hd (by simp)
  | cons id rest ih =>
      intro i d hd hne hemp
      cases d with
      | zero =>
          simp only [List.getD_cons_zero] at hne hemp ⊢
          apply List.mem_append_left
          rw [if_pos ⟨hne, hemp⟩]
          simp
      | succ d' =>
          simp only [List.getD_cons_succ] at hne hemp ⊢
          apply List.mem_append_right
          apply List.mem_cons_of_mem
          have hcast : i + ((d' + 1 : Nat) : Int) = (i + 1) + (d' : Int) := by
            push_cast
            ring
          rw [hcast]
          exact ih (i + 1) d' (by simpa using hd) hne hemp

/-- The flush loop enqueues exactly one end-of-stream marker per
destination. -/
theorem flushLoop_marker_count (mb : MessageBuffers) (tag : Int) :
    ∀ (ids : List Int) (i : Int),
      (flushLoop mb tag ids i).countP (fun e => e.bufferId == -1) = ids.length := by
  intro ids
  induction ids with
  | nil =>
      intro i
      rfl
  | cons id rest ih =>
      intro i
      simp only [flushLoop, List.countP_append, List.countP_cons]
      by_cases hc : id ≠ -1 ∧ (mb.getBackBuffer id).isEmpty = false
      · rw [if_pos hc]
        simp [List.countP_cons, ih, hc.1]
      · rw [if_neg hc]
        simp [ih]

/-- C4 (amended): when the per-tag MessageBuffers exist and the tag is
still in sendAccept, flush removes the tag from sendAccept, appends to the
outbound queue — per destination d in [0, P), in order — the active buffer
as a normal send when its id is valid and non-empty, and an end-of-stream
marker (-1, tag, d) for every d (exactly P markers in total), and returns
without touching the in-progress sends or receives (no waiting for
transmission to drain). -/
theorem flush_spec (st : CommLayerState) (tag : Int) (mb : MessageBuffers)
    (hmb : alookup st.buffers tag = some mb)
    (hacc : tag ∈ st.sendAccept)
    (hnd : st.sendAccept.Nodup)
    (hP : mb.getActiveIds.length = st.commSize.toNat) :
    (flush st tag).sendAccept = st.sendAccept.erase tag ∧
    tag ∉ (flush st tag).sendAccept ∧
    (flush st tag).sendQueue = st.sendQueue ++ flushLoop mb tag mb.getActiveIds 0 ∧
    (∀ d : Nat, d < st.commSize.toNat →
      SendQueueElement.mk (-1) tag (d : Int) ∈ (flush st tag).sendQueue) ∧
    (∀ d : Nat, d < st.commSize.toNat →
      mb.getActiveIds.getD d (-1) ≠ -1 →
      (mb.getBackBuffer (mb.getActiveIds.getD d (-1))).isEmpty = false →
      SendQueueElement.mk (mb.getActiveIds.getD d (-1)) tag (d : Int) ∈
        (flush st tag).sendQueue) ∧
    (flushLoop mb tag mb.getActiveIds 0).countP (fun e => e.bufferId == -1) =
      st.commSize.toNat ∧
    (flush st tag).sendInProgress = st.sendInProgress ∧
    (flush st tag).recvInProgress = st.recvInProgress ∧
    (flush st tag).recvQueue = st.recvQueue := by
  have hf : flush st tag =
      { st with sendQueue := st.sendQueue ++ flushLoop mb tag mb.getActiveIds 0,
                sendAccept := st.sendAccept.erase tag } := by
    unfold flush
    rw [hmb]
    dsimp only
    rw [if_pos hacc]
  rw [hf]
  refine ⟨rfl, hnd.not_mem_erase, rfl, ?_, ?_, ?_, rfl, rfl, rfl⟩
  · intro d hd
    apply List.mem_append_right
    have h := flushLoop_marker_mem mb tag mb.getActiveIds 0 d (by rw [hP]; exact hd)
    simpa using h
  · intro d hd hne hemp
    apply List.mem_append_right
    have h := flushLoop_data_mem mb tag mb.getActiveIds 0 d (by rw [hP]; exact hd) hne hemp
    simpa using h
  · rw [flushLoop_marker_count, hP]

/-- A MessageBuffers for two destinations with a non-empty active buffer
(id 0, two committed bytes) for destination 0 and an empty one for 1. -/
def flushWitBuffers : MessageBuffers :=
  { nDest := 2, bufCapacity := 4,
    pool := [⟨4, 2, false, [7, 8, 0, 0]⟩, ⟨4, 0, false, [0, 0, 0, 0]⟩,
             freshBuffer 4, freshBuffer 4],
    active := [0, 1], freeList := [2, 3] }

/-- A communication layer (P = 2, rank 0) where tag 1 is registered and
has the MessageBuffers above. -/
def flushWitState : CommLayerState :=
  { recvInProgress := [], sendInProgress := [], sendQueue := [], recvQueue := [],
    buffers := [(1, flushWitBuffers)], sendAccept := [1], recvRemaining := [(1, 2)],
    callbackFunctions := [1], commSize := 2, commRank := 0, log := [] }

/-- Witness for C4 (amended): the amended flush contract at a concrete
two-destination state. -/
theorem flush_spec_witness :
    (alookup flushWitState.buffers 1 = some flushWitBuffers ∧
      1 ∈ flushWitState.sendAccept ∧
      flushWitState.sendAccept.Nodup ∧
      flushWitBuffers.getActiveIds.length = flushWitState.commSize.toNat) ∧
    ((flush flushWitState 1).sendAccept = flushWitState.sendAccept.erase 1 ∧
    1 ∉ (flush flushWitState 1).sendAccept ∧
    (flush flushWitState 1).sendQueue =
      flushWitState.sendQueue ++ flushLoop flushWitBuffers 1 flushWitBuffers.getActiveIds 0 ∧
    (∀ d : Nat, d < flushWitState.commSize.toNat →
      SendQueueElement.mk (-1) 1 (d : Int) ∈ (flush flushWitState 1).sendQueue) ∧
    (∀ d : Nat, d < flushWitState.commSize.toNat →
      flushWitBuffers.getActiveIds.getD d (-1) ≠ -1 →
      (flushWitBuffers.getBackBuffer (flushWitBuffers.getActiveIds.getD d (-1))).isEmpty = false →
      SendQueueElement.mk (flushWitBuffers.getActiveIds.getD d (-1)) 1 (d : Int) ∈
        (flush flushWitState 1).sendQueue) ∧
    (flushLoop flushWitBuffers 1 flushWitBuffers.getActiveIds 0).countP
        (fun e => e.bufferId == -1) = flushWitState.commSize.toNat ∧
    (flush flushWitState 1).sendInProgress = flushWitState.sendInProgress ∧
    (flush flushWitState 1).recvInProgress = flushWitState.recvInProgress ∧
    (flush flushWitState 1).recvQueue = flushWitState.recvQueue) :=
  ⟨⟨by rfl, by decide, by decide, by rfl⟩,
   flush_spec flushWitState 1 flushWitBuffers (by rfl) (by decide) (by decide) (by rfl)⟩

/-- C8: when the communication thread pops an outbound element destined to
the local rank, nothing is posted to the transport (sendInProgress is kept
in both record equalities): a marker is pushed onto the inbound queue as
(nullptr, 0, tag, self); a data element has the named buffer's committed
bytes copied into a fresh block pushed onto the inbound queue as
(block, size, tag, self), and the buffer is released back to its pool. -/
theorem tryStartSend_loopback_spec (st : CommLayerState) (se : SendQueueElement)
    (rest : List SendQueueElement) (mb : MessageBuffers)
    (hq : st.sendQueue = se :: rest)
    (hdst : se.dst = st.commRank) :
    (se.bufferId = -1 →
      tryStartSend st =
        { st with
            sendQueue := rest,
            recvQueue := st.recvQueue ++ [⟨none, 0, se.tag, st.commRank⟩] }) ∧
    (se.bufferId ≠ -1 → alookup st.buffers se.tag = some mb →
      tryStartSend st =
        { st with
            sendQueue := rest,
            recvQueue := st.recvQueue ++
              [⟨some ((mb.getBackBuffer se.bufferId).getData.take
                        (mb.getBackBuffer se.bufferId).getSize),
                (mb.getBackBuffer se.bufferId).getSize, se.tag, st.commRank⟩],
            buffers := aset st.buffers se.tag (mb.releaseBuffer se.bufferId) }) := by
  constructor
  · intro hid
    simp only [tryStartSend, hq]
    rw [if_pos hid, if_pos hdst]
  · intro hid hmb
    simp only [tryStartSend, hq]
    rw [if_neg hid, hmb]
    simp only [Option.getD_some]
    rw [if_pos hdst]

/-- A communication layer (P = 2, rank 0) whose outbound queue holds one
end-of-stream marker for tag 3, destination 0 (= self). -/
def loopbackState : CommLayerState :=
  { recvInProgress := [], sendInProgress := [], sendQueue := [⟨-1, 3, 0⟩], recvQueue := [],
    buffers := [(3, MessageBuffers.mkNew 2 4)], sendAccept := [], recvRemaining := [(3, 2)],
    callbackFunctions := [3], commSize := 2, commRank := 0, log := [] }

/-- Witness for C8: the self-destined marker at the head of the outbound
queue is delivered through the inbound queue. -/
theorem tryStartSend_loopback_spec_witness :
    (loopbackState.sendQueue = SendQueueElement.mk (-1) 3 0 :: [] ∧
      (SendQueueElement.mk (-1) 3 0).dst = loopbackState.commRank) ∧
    (((SendQueueElement.mk (-1) 3 0).bufferId = -1 →
      tryStartSend loopbackState =
        { loopbackState with
            sendQueue := ([] : List SendQueueElement),
            recvQueue := loopbackState.recvQueue ++
              [⟨none, 0, (SendQueueElement.mk (-1) 3 0).tag, loopbackState.commRank⟩] }) ∧
    ((SendQueueElement.mk (-1) 3 0).bufferId ≠ -1 →
      alookup loopbackState.buffers (SendQueueElement.mk (-1) 3 0).tag =
        some (MessageBuffers.mkNew 2 4) →
      tryStartSend loopbackState =
        { loopbackState with
            sendQueue := ([] : List SendQueueElement),
            recvQueue := loopbackState.recvQueue ++
              [⟨some (((MessageBuffers.mkNew 2 4).getBackBuffer
                          (SendQueueElement.mk (-1) 3 0).bufferId).getData.take
                        ((MessageBuffers.mkNew 2 4).getBackBuffer
                          (SendQueueElement.mk (-1) 3 0).bufferId).getSize),
                ((MessageBuffers.mkNew 2 4).getBackBuffer
                  (SendQueueElement.mk (-1) 3 0).bufferId).getSize,
                (SendQueueElement.mk (-1) 3 0).tag, loopbackState.commRank⟩],
            buffers := aset loopbackState.buffers (SendQueueElement.mk (-1) 3 0).tag
              ((MessageBuffers.mkNew 2 4).releaseBuffer
                (SendQueueElement.mk (-1) 3 0).bufferId) })) :=
  ⟨⟨by rfl, by rfl⟩,
   tryStartSend_loopback_spec loopbackState (SendQueueElement.mk (-1) 3 0) []
     (MessageBuffers.mkNew 2 4) (by rfl) (by rfl)⟩

end Kmerind
